import Mathlib

/-!
Shallow embedding of the AI-voice-detection scoring engine
(`app/detector.py` and `app/feature_extractor.py`).

The detector works on a feature map of named rational scalars; Python
floats are modelled as exact rationals (ℚ).  Each threshold test of the
five category analyzers is embedded as its own function returning the
increments it makes to the local score accumulators, the shared signal
tallies and the shared indicator list; an analyzer is the ordered
combination of its tests, exactly following the source's branch
structure.  `round(x, 2)` is modelled as rounding to the nearest
multiple of 1/100.
-/

namespace VoiceDetector

/-- The feature map handed to the detector.  `features.get(key, 0)` in the
source defaults every absent key to 0, which the field defaults mirror. -/
structure Features where
  pitch_cv : ℚ := 0
  pitch_std : ℚ := 0
  pitch_range : ℚ := 0
  mfcc_variance : ℚ := 0
  mfcc_delta_std : ℚ := 0
  mfcc_std_mean : ℚ := 0
  spectral_flatness_mean : ℚ := 0
  spectral_centroid_std : ℚ := 0
  spectral_contrast_mean : ℚ := 0
  silence_ratio : ℚ := 0
  rms_cv : ℚ := 0
  zcr_std : ℚ := 0
  jitter : ℚ := 0
  shimmer : ℚ := 0
  harmonic_ratio : ℚ := 0
deriving DecidableEq

namespace THRESHOLDS

def pitch_cv_ai_max : ℚ := 0.15
def pitch_cv_human_min : ℚ := 0.08
def pitch_std_ai_max : ℚ := 25
def mfcc_variance_ai_max : ℚ := 150
def mfcc_delta_std_ai_max : ℚ := 15
def spectral_flatness_ai_min : ℚ := 0.03
def spectral_centroid_std_ai_max : ℚ := 350
def silence_ratio_human_min : ℚ := 0.05
def silence_ratio_human_max : ℚ := 0.30
def jitter_ai_max : ℚ := 0.05
def shimmer_ai_max : ℚ := 0.3
def harmonic_ratio_ai_min : ℚ := 40

end THRESHOLDS

/-- The effect of one threshold test: increments to the local
synthetic/human score accumulators, to the shared signal tallies, and the
indicator strings it appends. -/
structure TestRes where
  ai : ℚ := 0
  human : ℚ := 0
  aiSig : ℕ := 0
  humanSig : ℕ := 0
  inds : List String := []
deriving DecidableEq

def combine (a b : TestRes) : TestRes :=
  { ai := a.ai + b.ai
    human := a.human + b.human
    aiSig := a.aiSig + b.aiSig
    humanSig := a.humanSig + b.humanSig
    inds := a.inds ++ b.inds }

def pitchCvTest (pitch_cv : ℚ) : TestRes :=
  if pitch_cv < THRESHOLDS.pitch_cv_human_min then
    { ai := 0.4, aiSig := 1, inds := ["Unnaturally consistent pitch detected"] }
  else if pitch_cv > THRESHOLDS.pitch_cv_ai_max then
    { human := 0.4, humanSig := 1, inds := ["Natural pitch variation present"] }
  else
    { human := 0.2 }

def pitchStdTest (pitch_std : ℚ) : TestRes :=
  if pitch_std < THRESHOLDS.pitch_std_ai_max ∧ pitch_std > 0 then
    { ai := 0.3, aiSig := 1 }
  else
    { human := 0.3, humanSig := 1 }

def pitchRangeTest (pitch_range : ℚ) : TestRes :=
  if pitch_range > 50 then
    { human := 0.3, humanSig := 1, inds := ["Wide pitch range typical of human speech"] }
  else
    { ai := 0.2 }

def mfccVarTest (mfcc_var : ℚ) : TestRes :=
  if mfcc_var < THRESHOLDS.mfcc_variance_ai_max then
    { ai := 0.4, aiSig := 1, inds := ["Low spectral complexity detected"] }
  else
    { human := 0.4, humanSig := 1, inds := ["Rich spectral complexity present"] }

def mfccDeltaTest (mfcc_delta_std : ℚ) : TestRes :=
  if mfcc_delta_std < THRESHOLDS.mfcc_delta_std_ai_max then
    { ai := 0.3, aiSig := 1, inds := ["Limited dynamic speech patterns"] }
  else
    { human := 0.3, humanSig := 1 }

def mfccStdMeanTest (mfcc_std_mean : ℚ) : TestRes :=
  if mfcc_std_mean > 10 then
    { human := 0.3, humanSig := 1 }
  else
    { ai := 0.2 }

def spectralFlatnessTest (flatness : ℚ) : TestRes :=
  if flatness < THRESHOLDS.spectral_flatness_ai_min then
    { human := 0.35, humanSig := 1, inds := ["Natural tonal quality detected"] }
  else
    { ai := 0.25 }

def spectralCentroidTest (centroid_std : ℚ) : TestRes :=
  if centroid_std > THRESHOLDS.spectral_centroid_std_ai_max then
    { human := 0.35, humanSig := 1, inds := ["Natural frequency variations present"] }
  else
    { ai := 0.3, aiSig := 1 }

def spectralContrastTest (contrast : ℚ) : TestRes :=
  if contrast > 20 then
    { human := 0.3, humanSig := 1 }
  else
    { ai := 0.2 }

def silenceRatioTest (silence_ratio : ℚ) : TestRes :=
  if THRESHOLDS.silence_ratio_human_min ≤ silence_ratio ∧
      silence_ratio ≤ THRESHOLDS.silence_ratio_human_max then
    { human := 0.5, humanSig := 1, inds := ["Natural breathing pauses detected"] }
  else if silence_ratio < THRESHOLDS.silence_ratio_human_min then
    { ai := 0.4, aiSig := 1, inds := ["Lack of natural breathing pauses"] }
  else
    { ai := 0.3, inds := ["Unusual pause patterns detected"] }

def rmsCvTest (rms_cv : ℚ) : TestRes :=
  if rms_cv > 0.4 then
    { human := 0.3, humanSig := 1, inds := ["Natural energy variations in speech"] }
  else
    { ai := 0.25 }

def zcrStdTest (zcr_std : ℚ) : TestRes :=
  if zcr_std > 0.02 then
    { human := 0.2 }
  else
    { ai := 0.15 }

def jitterTest (jitter : ℚ) : TestRes :=
  if jitter > THRESHOLDS.jitter_ai_max then
    { human := 0.4, humanSig := 1, inds := ["Natural voice micro-variations detected"] }
  else
    { ai := 0.4, aiSig := 1, inds := ["Missing natural voice micro-variations"] }

def shimmerTest (shimmer : ℚ) : TestRes :=
  if shimmer > THRESHOLDS.shimmer_ai_max then
    { human := 0.3, humanSig := 1, inds := ["Natural amplitude variations present"] }
  else
    { ai := 0.3, aiSig := 1 }

def harmonicRatioTest (harmonic_ratio : ℚ) : TestRes :=
  if harmonic_ratio > THRESHOLDS.harmonic_ratio_ai_min then
    { ai := 0.25, inds := ["Unusually clean audio signal"] }
  else
    { human := 0.25, humanSig := 1 }

/-- Result of one category analyzer: the combined test effects plus the
category score it records into `self.scores`. -/
structure CatRes where
  res : TestRes
  score : ℚ
deriving DecidableEq

/-- `ai_score / total` when the accumulator total is positive, else the
0.5 no-signal default (lines 133-137 etc. of the source). -/
def mkScore (t : TestRes) : ℚ :=
  if t.ai + t.human > 0 then t.ai / (t.ai + t.human) else 0.5

def analyze_pitch (f : Features) : CatRes :=
  let t := combine (combine (pitchCvTest f.pitch_cv) (pitchStdTest f.pitch_std))
    (pitchRangeTest f.pitch_range)
  ⟨t, mkScore t⟩

def analyze_mfcc (f : Features) : CatRes :=
  let t := combine (combine (mfccVarTest f.mfcc_variance) (mfccDeltaTest f.mfcc_delta_std))
    (mfccStdMeanTest f.mfcc_std_mean)
  ⟨t, mkScore t⟩

def analyze_spectral (f : Features) : CatRes :=
  let t := combine (combine (spectralFlatnessTest f.spectral_flatness_mean)
    (spectralCentroidTest f.spectral_centroid_std)) (spectralContrastTest f.spectral_contrast_mean)
  ⟨t, mkScore t⟩

def analyze_temporal (f : Features) : CatRes :=
  let t := combine (combine (silenceRatioTest f.silence_ratio) (rmsCvTest f.rms_cv))
    (zcrStdTest f.zcr_std)
  ⟨t, mkScore t⟩

def analyze_voice_quality (f : Features) : CatRes :=
  let t := combine (combine (jitterTest f.jitter) (shimmerTest f.shimmer))
    (harmonicRatioTest f.harmonic_ratio)
  ⟨t, mkScore t⟩

/-- Detector state after the five analyzers ran, in source order:
`self.scores` (insertion-ordered), `self.indicators`, the two tallies. -/
structure AnalysisState where
  scores : List (String × ℚ)
  inds : List String
  aiSignals : ℕ
  humanSignals : ℕ

def runAnalysis (f : Features) : AnalysisState :=
  let p := analyze_pitch f
  let m := analyze_mfcc f
  let s := analyze_spectral f
  let t := analyze_temporal f
  let v := analyze_voice_quality f
  let all := combine (combine (combine (combine p.res m.res) s.res) t.res) v.res
  { scores := [("pitch", p.score), ("mfcc", m.score), ("spectral", s.score),
      ("temporal", t.score), ("voice_quality", v.score)]
    inds := all.inds
    aiSignals := all.aiSig
    humanSignals := all.humanSig }

def WEIGHTS : List (String × ℚ) :=
  [("pitch", 0.30), ("mfcc", 0.20), ("spectral", 0.15), ("temporal", 0.15),
    ("voice_quality", 0.20)]

def lookupScore (scores : List (String × ℚ)) (cat : String) : Option ℚ :=
  (scores.find? (fun p => p.1 == cat)).map (fun p => p.2)

/-- `_calculate_final_score`: weighted sum over the categories present in
`scores`, divided by their total weight; 0.5 when none is present. -/
def calculate_final_score (scores : List (String × ℚ)) : ℚ :=
  let acc := WEIGHTS.foldl
    (fun (a : ℚ × ℚ) cw =>
      match lookupScore scores cw.1 with
      | some s => (a.1 + s * cw.2, a.2 + cw.2)
      | none => a)
    (0, 0)
  if acc.2 > 0 then acc.1 / acc.2 else 0.5

/-- `_calculate_confidence_boost`. -/
def calculate_confidence_boost (ai_signals human_signals : ℕ) : ℚ :=
  let total_signals := ai_signals + human_signals
  if total_signals = 0 then 0
  else
    let agreement_ratio : ℚ :=
      if ai_signals > human_signals then (ai_signals : ℚ) / (total_signals : ℚ)
      else (human_signals : ℚ) / (total_signals : ℚ)
    if agreement_ratio > 0.75 then 0.25
    else if agreement_ratio > 0.65 then 0.15
    else if agreement_ratio > 0.55 then 0.08
    else 0

/-- `round(x, 2)` modelled as rounding to the nearest multiple of 1/100. -/
def round2 (q : ℚ) : ℚ := (round (q * 100) : ℤ) / 100

/-- Python's `b in a` on lists of characters: `listLeads w s` is true when
`w` is an initial run of `s`. -/
def listLeads : List Char → List Char → Bool
  | [], _ => true
  | _ :: _, [] => false
  | a :: as, b :: bs => a == b && listLeads as bs

def listHasSub (w : List Char) : List Char → Bool
  | [] => w.isEmpty
  | c :: t => listLeads w (c :: t) || listHasSub w t

/-- Python's `word in s` substring containment on strings. -/
def strIn (word s : String) : Bool := listHasSub word.toList s.toList

def AI_KEYWORDS : List String :=
  ["unnatural", "lack", "missing", "unusual", "limited", "low", "synthetic", "clean"]

def HUMAN_KEYWORDS : List String :=
  ["natural", "present", "human", "rich", "wide", "breathing"]

/-- `any(word in ind.lower() for word in kws)`. -/
def matchesAny (kws : List String) (ind : String) : Bool :=
  kws.any (fun w => strIn w ind.toLower)

def AI_EXPLANATIONS : List (String × String) :=
  [("pitch", "Unnatural pitch consistency and robotic speech patterns detected"),
    ("mfcc", "Synthetic spectral patterns identified in voice analysis"),
    ("spectral", "Artificial frequency distribution detected"),
    ("temporal", "Mechanical timing patterns without natural rhythm"),
    ("voice_quality", "Missing natural voice micro-variations and tremors")]

def HUMAN_EXPLANATIONS : List (String × String) :=
  [("pitch", "Natural pitch variation consistent with human speech"),
    ("mfcc", "Complex spectral patterns typical of human voice"),
    ("spectral", "Natural frequency characteristics detected"),
    ("temporal", "Organic speech rhythm with natural pauses"),
    ("voice_quality", "Natural voice micro-variations and breathing detected")]

/-- `dict.get(k, d)` over an association list. -/
def lookupD (m : List (String × String)) (k d : String) : String :=
  match m.find? (fun p => p.1 == k) with
  | some p => p.2
  | none => d

/-- Python's `max(scores, key=scores.get)`: first key of maximal value in
iteration (insertion) order; `none` models the ValueError on an empty dict. -/
def maxKeyQ : List (String × ℚ) → Option String
  | [] => none
  | h :: t => some (t.foldl (fun best x => if x.2 > best.2 then x else best) h).1

/-- Python's `min(scores, key=scores.get)`: first key of minimal value. -/
def minKeyQ : List (String × ℚ) → Option String
  | [] => none
  | h :: t => some (t.foldl (fun best x => if x.2 < best.2 then x else best) h).1

/-- `_generate_explanation`; `none` models the exception Python would raise
taking the max/min of an empty scores dict (unreachable from `detect`). -/
def generate_explanation (classification : String) (indicators : List String)
    (scores : List (String × ℚ)) : Option String :=
  if classification == "AI_GENERATED" then
    match indicators.filter (matchesAny AI_KEYWORDS) with
    | a :: b :: _ => some (a ++ " and " ++ b.toLower)
    | [a] => some a
    | [] => (maxKeyQ scores).map
        (fun c => lookupD AI_EXPLANATIONS c "Synthetic speech patterns detected")
  else
    match indicators.filter (matchesAny HUMAN_KEYWORDS) with
    | a :: b :: _ => some (a ++ " and " ++ b.toLower)
    | [a] => some a
    | [] => (minKeyQ scores).map
        (fun c => lookupD HUMAN_EXPLANATIONS c "Natural human speech characteristics identified")

structure DetectionResult where
  classification : String
  confidenceScore : ℚ
  explanation : String
deriving DecidableEq

def ai_probability (f : Features) : ℚ := calculate_final_score (runAnalysis f).scores

def confidence_boost_of (f : Features) : ℚ :=
  calculate_confidence_boost (runAnalysis f).aiSignals (runAnalysis f).humanSignals

def classificationOf (f : Features) : String :=
  if ai_probability f ≥ 0.50 then "AI_GENERATED" else "HUMAN"

def raw_confidence (f : Features) : ℚ :=
  if ai_probability f ≥ 0.50 then ai_probability f else 1 - ai_probability f

def final_confidence (f : Features) : ℚ :=
  max 0.55 (min 0.99 (raw_confidence f + confidence_boost_of f))

/-- `VoiceDetector.detect`, from the extracted feature map onward (feature
extraction itself is modelled separately).  The explanation's `.getD`
default is unreachable: `runAnalysis` always produces five scores. -/
def detect (f : Features) : DetectionResult :=
  { classification := classificationOf f
    confidenceScore := round2 (final_confidence f)
    explanation :=
      (generate_explanation (classificationOf f) (runAnalysis f).inds
        (runAnalysis f).scores).getD "" }

end VoiceDetector

namespace AudioFeatureExtractor

/-!
Embedding of `app/feature_extractor.py`.  Quantities the source computes
by pure rational arithmetic (frame energies, jitter, harmonic-to-percussive
energy quotient) are modelled over ℚ; quantities involving `np.std`
(a square root) are modelled over ℝ with `Real.sqrt`.  Outputs of the
borrowed numeric library (`librosa` pitch tracking, harmonic/percussive
separation, short-time rms) are taken as inputs of the corresponding
functions, as the spec treats that library as a supplied primitive.
-/

def meanQ (xs : List ℚ) : ℚ := xs.sum / xs.length

def sumSquares (xs : List ℚ) : ℚ := (xs.map (fun x => x * x)).sum

/-- `np.diff`: adjacent differences `x[i+1] - x[i]`. -/
def diffsQ (xs : List ℚ) : List ℚ := (xs.zip xs.tail).map (fun p => p.2 - p.1)

/-- Harmonic-to-percussive energy quotient from the two separated
components: capped at 100, and 100 when percussive energy is zero. -/
def extract_harmonic_ratio (harmonic percussive : List ℚ) : ℚ :=
  let h_energy := sumSquares harmonic
  let p_energy := sumSquares percussive
  if p_energy > 0 then min (h_energy / p_energy) 100 else 100

/-- `int(0.025 * sr)`: the 25 ms analysis frame in samples. -/
def frame_length (sr : ℕ) : ℕ := 25 * sr / 1000

/-- `int(0.010 * sr)`: the 10 ms hop in samples. -/
def hop_length (sr : ℕ) : ℕ := 10 * sr / 1000

/-- Number of frames `librosa.util.frame` yields when `n ≥ fl`. -/
def numFrames (n fl hop : ℕ) : ℕ := (n - fl) / hop + 1

/-- Per-frame energies `np.sum(frames ** 2, axis=0)`. -/
def frame_energies (y : List ℚ) (sr : ℕ) : List ℚ :=
  (List.range (numFrames y.length (frame_length sr) (hop_length sr))).map
    (fun i => sumSquares ((y.drop (i * hop_length sr)).take (frame_length sr)))

/-- The jitter feature of `_extract_voice_quality_features`. -/
def extract_jitter (y : List ℚ) (sr : ℕ) : ℚ :=
  if y.length > frame_length sr then
    let fe := frame_energies y sr
    if fe.length > 1 ∧ meanQ fe > 0 then
      min (meanQ ((diffsQ fe).map (fun d => |d|)) / meanQ fe) 1
    else 0
  else 0

noncomputable def meanR (xs : List ℝ) : ℝ := xs.sum / xs.length

noncomputable def varR (xs : List ℝ) : ℝ := meanR (xs.map (fun x => (x - meanR xs) ^ 2))

/-- `np.std`: population standard deviation. -/
noncomputable def stdR (xs : List ℝ) : ℝ := Real.sqrt (varR xs)

noncomputable def maxOf : List ℝ → ℝ
  | [] => 0
  | h :: t => t.foldl max h

noncomputable def minOf : List ℝ → ℝ
  | [] => 0
  | h :: t => t.foldl min h

noncomputable def diffsR (xs : List ℝ) : List ℝ := (xs.zip xs.tail).map (fun p => p.2 - p.1)

/-- `rms_cv = np.std(rms) / np.mean(rms)` guarded by `np.mean(rms) > 0`,
over the short-time rms values supplied by the numeric library. -/
noncomputable def extract_rms_cv (rms : List ℝ) : ℝ :=
  if meanR rms > 0 then stdR rms / meanR rms else 0

/-- `np.argmax`: index of the first maximal element (0 on an empty list). -/
noncomputable def argmaxIdx : List ℝ → ℕ
  | [] => 0
  | h :: t =>
    (t.foldl
      (fun (acc : ℕ × ℝ × ℕ) x =>
        if x > acc.2.1 then (acc.2.2 + 1, x, acc.2.2 + 1)
        else (acc.1, acc.2.1, acc.2.2 + 1))
      ((0 : ℕ), h, (0 : ℕ))).1

/-- One `piptrack` frame: its column of pitch candidates and the matching
column of magnitudes; the per-frame pitch is the candidate at the bin of
strongest magnitude. -/
noncomputable def framePitch (fr : List ℝ × List ℝ) : ℝ :=
  fr.1.getD (argmaxIdx fr.2) 0

/-- The voiced pitch values: per-frame strongest-bin pitches that are
positive, in frame order. -/
noncomputable def voicedPitches (frames : List (List ℝ × List ℝ)) : List ℝ :=
  frames.filterMap (fun fr => if framePitch fr > 0 then some (framePitch fr) else none)

structure PitchFeatures where
  pitch_mean : ℝ
  pitch_std : ℝ
  pitch_range : ℝ
  pitch_cv : ℝ
  pitch_jumps : ℝ

/-- `_extract_pitch_features` from the `piptrack` output onward. -/
noncomputable def extract_pitch_features (frames : List (List ℝ × List ℝ)) : PitchFeatures :=
  let pv := voicedPitches frames
  if pv.length > 10 then
    { pitch_mean := meanR pv
      pitch_std := stdR pv
      pitch_range := maxOf pv - minOf pv
      pitch_cv := if meanR pv > 0 then stdR pv / meanR pv else 0
      pitch_jumps :=
        (((diffsR pv).map (fun d => |d|)).countP (fun d => decide (d > 50)) : ℝ) /
          ((diffsR pv).map (fun d => |d|)).length }
  else ⟨0, 0, 0, 0, 0⟩

end AudioFeatureExtractor

namespace VoiceDetector

/-- Discipline a single threshold test obeys: it appends at most one
indicator, increments at most one shared tally, and a tally increment is
always of the same polarity as a strictly positive score increment of the
same test. -/
def testOk (t : TestRes) : Prop :=
  t.inds.length ≤ 1 ∧ t.aiSig + t.humanSig ≤ 1 ∧
    (t.aiSig = 1 → 0 < t.ai ∧ t.human = 0) ∧
    (t.humanSig = 1 → 0 < t.human ∧ t.ai = 0)

end VoiceDetector

namespace AudioFeatureExtractor

/-- Ten `piptrack` frames, each with a single 100 Hz candidate of
magnitude 1: exactly ten voiced frames. -/
noncomputable def frames10 : List (List ℝ × List ℝ) :=
  [([100], [1]), ([100], [1]), ([100], [1]), ([100], [1]), ([100], [1]),
    ([100], [1]), ([100], [1]), ([100], [1]), ([100], [1]), ([100], [1])]

end AudioFeatureExtractor

namespace VoiceDetector

lemma mkScore_eq (t : TestRes) :
    mkScore t = if 0 < t.ai + t.human then t.ai / (t.ai + t.human) else 0.5 := rfl

lemma mkScore_bounds (t : TestRes) (h1 : 0 ≤ t.ai) (h2 : 0 ≤ t.human) :
    0 ≤ mkScore t ∧ mkScore t ≤ 1 := by
  unfold mkScore
  split_ifs with h
  · refine ⟨div_nonneg h1 (le_of_lt h), ?_⟩
    rw [div_le_one h]
    linarith
  · norm_num

lemma pitchCvTest_total_pos (x : ℚ) : 0 < (pitchCvTest x).ai + (pitchCvTest x).human := by
  unfold pitchCvTest; split_ifs <;> norm_num

lemma pitchStdTest_total_pos (x : ℚ) : 0 < (pitchStdTest x).ai + (pitchStdTest x).human := by
  unfold pitchStdTest; split_ifs <;> norm_num

lemma pitchRangeTest_total_pos (x : ℚ) : 0 < (pitchRangeTest x).ai + (pitchRangeTest x).human := by
  unfold pitchRangeTest; split_ifs <;> norm_num

lemma mfccVarTest_total_pos (x : ℚ) : 0 < (mfccVarTest x).ai + (mfccVarTest x).human := by
  unfold mfccVarTest; split_ifs <;> norm_num

lemma mfccDeltaTest_total_pos (x : ℚ) : 0 < (mfccDeltaTest x).ai + (mfccDeltaTest x).human := by
  unfold mfccDeltaTest; split_ifs <;> norm_num

lemma mfccStdMeanTest_total_pos (x : ℚ) : 0 < (mfccStdMeanTest x).ai + (mfccStdMeanTest x).human := by
  unfold mfccStdMeanTest; split_ifs <;> norm_num

lemma spectralFlatnessTest_total_pos (x : ℚ) :
    0 < (spectralFlatnessTest x).ai + (spectralFlatnessTest x).human := by
  unfold spectralFlatnessTest; split_ifs <;> norm_num

lemma spectralCentroidTest_total_pos (x : ℚ) :
    0 < (spectralCentroidTest x).ai + (spectralCentroidTest x).human := by
  unfold spectralCentroidTest; split_ifs <;> norm_num

lemma spectralContrastTest_total_pos (x : ℚ) :
    0 < (spectralContrastTest x).ai + (spectralContrastTest x).human := by
  unfold spectralContrastTest; split_ifs <;> norm_num

lemma silenceRatioTest_total_pos (x : ℚ) :
    0 < (silenceRatioTest x).ai + (silenceRatioTest x).human := by
  unfold silenceRatioTest; split_ifs <;> norm_num

lemma rmsCvTest_total_pos (x : ℚ) : 0 < (rmsCvTest x).ai + (rmsCvTest x).human := by
  unfold rmsCvTest; split_ifs <;> norm_num

lemma zcrStdTest_total_pos (x : ℚ) : 0 < (zcrStdTest x).ai + (zcrStdTest x).human := by
  unfold zcrStdTest; split_ifs <;> norm_num

lemma jitterTest_total_pos (x : ℚ) : 0 < (jitterTest x).ai + (jitterTest x).human := by
  unfold jitterTest; split_ifs <;> norm_num

lemma shimmerTest_total_pos (x : ℚ) : 0 < (shimmerTest x).ai + (shimmerTest x).human := by
  unfold shimmerTest; split_ifs <;> norm_num

lemma harmonicRatioTest_total_pos (x : ℚ) :
    0 < (harmonicRatioTest x).ai + (harmonicRatioTest x).human := by
  unfold harmonicRatioTest; split_ifs <;> norm_num

lemma pitch_acc (f : Features) :
    0 ≤ (analyze_pitch f).res.ai ∧ 0 ≤ (analyze_pitch f).res.human ∧
      0 < (analyze_pitch f).res.ai + (analyze_pitch f).res.human := by
  simp only [analyze_pitch, combine, pitchCvTest, pitchStdTest, pitchRangeTest]
  split_ifs <;> norm_num

lemma mfcc_acc (f : Features) :
    0 ≤ (analyze_mfcc f).res.ai ∧ 0 ≤ (analyze_mfcc f).res.human ∧
      0 < (analyze_mfcc f).res.ai + (analyze_mfcc f).res.human := by
  simp only [analyze_mfcc, combine, mfccVarTest, mfccDeltaTest, mfccStdMeanTest]
  split_ifs <;> norm_num

lemma spectral_acc (f : Features) :
    0 ≤ (analyze_spectral f).res.ai ∧ 0 ≤ (analyze_spectral f).res.human ∧
      0 < (analyze_spectral f).res.ai + (analyze_spectral f).res.human := by
  simp only [analyze_spectral, combine, spectralFlatnessTest, spectralCentroidTest,
    spectralContrastTest]
  split_ifs <;> norm_num

lemma temporal_acc (f : Features) :
    0 ≤ (analyze_temporal f).res.ai ∧ 0 ≤ (analyze_temporal f).res.human ∧
      0 < (analyze_temporal f).res.ai + (analyze_temporal f).res.human := by
  simp only [analyze_temporal, combine, silenceRatioTest, rmsCvTest, zcrStdTest]
  split_ifs <;> norm_num

lemma voice_quality_acc (f : Features) :
    0 ≤ (analyze_voice_quality f).res.ai ∧ 0 ≤ (analyze_voice_quality f).res.human ∧
      0 < (analyze_voice_quality f).res.ai + (analyze_voice_quality f).res.human := by
  simp only [analyze_voice_quality, combine, jitterTest, shimmerTest, harmonicRatioTest]
  split_ifs <;> norm_num

lemma final_score_five (p m s t v : ℚ) :
    calculate_final_score [("pitch", p), ("mfcc", m), ("spectral", s), ("temporal", t),
      ("voice_quality", v)] = 0.30 * p + 0.20 * m + 0.15 * s + 0.15 * t + 0.20 * v := by
  simp [calculate_final_score, WEIGHTS, lookupScore, List.find?]
  norm_num
  ring

lemma runAnalysis_scores (f : Features) :
    (runAnalysis f).scores = [("pitch", (analyze_pitch f).score), ("mfcc", (analyze_mfcc f).score),
      ("spectral", (analyze_spectral f).score), ("temporal", (analyze_temporal f).score),
      ("voice_quality", (analyze_voice_quality f).score)] := rfl

/-- C1: for every feature map, `detect` labels the input `"AI_GENERATED"`
exactly when the weighted final score is at least 0.50 and `"HUMAN"`
otherwise, and the raw confidence before boosting is the weighted score for
the synthetic label and one minus the weighted score for the human label. -/
theorem detect_classification_spec (f : Features) :
    ((detect f).classification = "AI_GENERATED" ↔ ai_probability f ≥ 0.50) ∧
    ((detect f).classification = "HUMAN" ↔ ai_probability f < 0.50) ∧
    raw_confidence f =
      (if ai_probability f ≥ 0.50 then ai_probability f else 1 - ai_probability f) := by
  unfold detect classificationOf raw_confidence
  split_ifs with h
  · exact ⟨iff_of_true rfl h, iff_of_false (by simp) (not_lt.mpr h), rfl⟩
  · exact ⟨iff_of_false (by simp) h, iff_of_true rfl (lt_of_not_ge h), rfl⟩

/-- C3: every category analyzer records as its score the synthetic
accumulator divided by the accumulator total, defaulting to 0.5 when the
total is zero, and every category score lies in `[0, 1]`. -/
theorem category_score_spec (f : Features) :
    ((analyze_pitch f).score =
        (if 0 < (analyze_pitch f).res.ai + (analyze_pitch f).res.human then
          (analyze_pitch f).res.ai / ((analyze_pitch f).res.ai + (analyze_pitch f).res.human)
        else 0.5) ∧
      0 ≤ (analyze_pitch f).score ∧ (analyze_pitch f).score ≤ 1) ∧
    ((analyze_mfcc f).score =
        (if 0 < (analyze_mfcc f).res.ai + (analyze_mfcc f).res.human then
          (analyze_mfcc f).res.ai / ((analyze_mfcc f).res.ai + (analyze_mfcc f).res.human)
        else 0.5) ∧
      0 ≤ (analyze_mfcc f).score ∧ (analyze_mfcc f).score ≤ 1) ∧
    ((analyze_spectral f).score =
        (if 0 < (analyze_spectral f).res.ai + (analyze_spectral f).res.human then
          (analyze_spectral f).res.ai /
            ((analyze_spectral f).res.ai + (analyze_spectral f).res.human)
        else 0.5) ∧
      0 ≤ (analyze_spectral f).score ∧ (analyze_spectral f).score ≤ 1) ∧
    ((analyze_temporal f).score =
        (if 0 < (analyze_temporal f).res.ai + (analyze_temporal f).res.human then
          (analyze_temporal f).res.ai /
            ((analyze_temporal f).res.ai + (analyze_temporal f).res.human)
        else 0.5) ∧
      0 ≤ (analyze_temporal f).score ∧ (analyze_temporal f).score ≤ 1) ∧
    ((analyze_voice_quality f).score =
        (if 0 < (analyze_voice_quality f).res.ai + (analyze_voice_quality f).res.human then
          (analyze_voice_quality f).res.ai /
            ((analyze_voice_quality f).res.ai + (analyze_voice_quality f).res.human)
        else 0.5) ∧
      0 ≤ (analyze_voice_quality f).score ∧ (analyze_voice_quality f).score ≤ 1) := by
  obtain ⟨p1, p2, _⟩ := pitch_acc f
  obtain ⟨m1, m2, _⟩ := mfcc_acc f
  obtain ⟨s1, s2, _⟩ := spectral_acc f
  obtain ⟨t1, t2, _⟩ := temporal_acc f
  obtain ⟨v1, v2, _⟩ := voice_quality_acc f
  exact ⟨⟨rfl, mkScore_bounds _ p1 p2⟩, ⟨rfl, mkScore_bounds _ m1 m2⟩,
    ⟨rfl, mkScore_bounds _ s1 s2⟩, ⟨rfl, mkScore_bounds _ t1 t2⟩,
    ⟨rfl, mkScore_bounds _ v1 v2⟩⟩

/-- C4: the five category weights are 0.30/0.20/0.15/0.15/0.20 and sum to
exactly 1; the aggregator renormalizes by the total weight of the
categories present (0.5 when none is present), so with all five categories
present the final score is the plain weighted sum. -/
theorem weights_spec :
    WEIGHTS = [("pitch", 0.30), ("mfcc", 0.20), ("spectral", 0.15), ("temporal", 0.15),
      ("voice_quality", 0.20)] ∧
    (WEIGHTS.map (fun p => p.2)).sum = 1 ∧
    (∀ p m s t v : ℚ,
      calculate_final_score [("pitch", p), ("mfcc", m), ("spectral", s), ("temporal", t),
        ("voice_quality", v)] = 0.30 * p + 0.20 * m + 0.15 * s + 0.15 * t + 0.20 * v) ∧
    (∀ p m : ℚ,
      calculate_final_score [("pitch", p), ("mfcc", m)] =
        (0.30 * p + 0.20 * m) / (0.30 + 0.20)) ∧
    calculate_final_score [] = 0.5 := by
  refine ⟨rfl, by norm_num [WEIGHTS], final_score_five, ?_, ?_⟩
  · intro p m
    simp [calculate_final_score, WEIGHTS, lookupScore, List.find?]
    norm_num
    ring
  · simp [calculate_final_score, WEIGHTS, lookupScore, List.find?]

lemma pitchCvTest_human_mono {a b : ℚ} (hab : a ≤ b) :
    (pitchCvTest a).human ≤ (pitchCvTest b).human := by
  unfold pitchCvTest THRESHOLDS.pitch_cv_human_min THRESHOLDS.pitch_cv_ai_max
  split_ifs <;> norm_num <;> linarith

/-- C9: the pitch-CV test contributes 0 to the human accumulator below the
human-min threshold (0.08), 0.2 between human-min and ai-max (0.15), and
0.4 above ai-max; with the other pitch features held fixed, the pitch
analyzer's human accumulator is monotone non-decreasing in the pitch
coefficient of variation. -/
theorem pitch_cv_human_monotone :
    (∀ cv : ℚ, (pitchCvTest cv).human =
      (if cv < THRESHOLDS.pitch_cv_human_min then 0
       else if cv > THRESHOLDS.pitch_cv_ai_max then 0.4 else 0.2)) ∧
    (∀ f g : Features, f.pitch_std = g.pitch_std → f.pitch_range = g.pitch_range →
      f.pitch_cv ≤ g.pitch_cv →
      (analyze_pitch f).res.human ≤ (analyze_pitch g).res.human) := by
  constructor
  · intro cv
    unfold pitchCvTest
    split_ifs <;> rfl
  · intro f g h1 h2 h3
    simp only [analyze_pitch, combine]
    rw [h1, h2]
    have := pitchCvTest_human_mono h3
    linarith

/-- C9 witness: the monotonicity instance at pitch CV 0.1 versus 0.2 with
all other features fixed at 0. -/
theorem pitch_cv_human_monotone_witness :
    (analyze_pitch ({ pitch_cv := 0.1 } : Features)).res.human ≤
      (analyze_pitch ({ pitch_cv := 0.2 } : Features)).res.human :=
  pitch_cv_human_monotone.2 ({ pitch_cv := 0.1 } : Features) ({ pitch_cv := 0.2 } : Features)
    rfl rfl (by norm_num)

/-- C10: on every feature map each of the 15 threshold tests adds a
strictly positive increment on every branch, so every analyzer's
accumulator total is positive; hence the scores list holds exactly the
five categories, the 0.5 no-signal default is never taken, and the final
score is the plain weighted sum with no renormalization. -/
theorem analyzers_always_signal (f : Features)
    (cv stdv rng mvar mdelta mstdm flat cstd contr sil rms zcr jit shim harm : ℚ) :
    (0 < (pitchCvTest cv).ai + (pitchCvTest cv).human ∧
      0 < (pitchStdTest stdv).ai + (pitchStdTest stdv).human ∧
      0 < (pitchRangeTest rng).ai + (pitchRangeTest rng).human ∧
      0 < (mfccVarTest mvar).ai + (mfccVarTest mvar).human ∧
      0 < (mfccDeltaTest mdelta).ai + (mfccDeltaTest mdelta).human ∧
      0 < (mfccStdMeanTest mstdm).ai + (mfccStdMeanTest mstdm).human ∧
      0 < (spectralFlatnessTest flat).ai + (spectralFlatnessTest flat).human ∧
      0 < (spectralCentroidTest cstd).ai + (spectralCentroidTest cstd).human ∧
      0 < (spectralContrastTest contr).ai + (spectralContrastTest contr).human ∧
      0 < (silenceRatioTest sil).ai + (silenceRatioTest sil).human ∧
      0 < (rmsCvTest rms).ai + (rmsCvTest rms).human ∧
      0 < (zcrStdTest zcr).ai + (zcrStdTest zcr).human ∧
      0 < (jitterTest jit).ai + (jitterTest jit).human ∧
      0 < (shimmerTest shim).ai + (shimmerTest shim).human ∧
      0 < (harmonicRatioTest harm).ai + (harmonicRatioTest harm).human) ∧
    (0 < (analyze_pitch f).res.ai + (analyze_pitch f).res.human ∧
      0 < (analyze_mfcc f).res.ai + (analyze_mfcc f).res.human ∧
      0 < (analyze_spectral f).res.ai + (analyze_spectral f).res.human ∧
      0 < (analyze_temporal f).res.ai + (analyze_temporal f).res.human ∧
      0 < (analyze_voice_quality f).res.ai + (analyze_voice_quality f).res.human) ∧
    (runAnalysis f).scores = [("pitch", (analyze_pitch f).score),
      ("mfcc", (analyze_mfcc f).score), ("spectral", (analyze_spectral f).score),
      ("temporal", (analyze_temporal f).score),
      ("voice_quality", (analyze_voice_quality f).score)] ∧
    ((analyze_pitch f).score =
        (analyze_pitch f).res.ai / ((analyze_pitch f).res.ai + (analyze_pitch f).res.human) ∧
      (analyze_mfcc f).score =
        (analyze_mfcc f).res.ai / ((analyze_mfcc f).res.ai + (analyze_mfcc f).res.human) ∧
      (analyze_spectral f).score =
        (analyze_spectral f).res.ai /
          ((analyze_spectral f).res.ai + (analyze_spectral f).res.human) ∧
      (analyze_temporal f).score =
        (analyze_temporal f).res.ai /
          ((analyze_temporal f).res.ai + (analyze_temporal f).res.human) ∧
      (analyze_voice_quality f).score =
        (analyze_voice_quality f).res.ai /
          ((analyze_voice_quality f).res.ai + (analyze_voice_quality f).res.human)) ∧
    ai_probability f = 0.30 * (analyze_pitch f).score + 0.20 * (analyze_mfcc f).score +
      0.15 * (analyze_spectral f).score + 0.15 * (analyze_temporal f).score +
      0.20 * (analyze_voice_quality f).score := by
  refine ⟨⟨pitchCvTest_total_pos cv, pitchStdTest_total_pos stdv, pitchRangeTest_total_pos rng,
      mfccVarTest_total_pos mvar, mfccDeltaTest_total_pos mdelta,
      mfccStdMeanTest_total_pos mstdm, spectralFlatnessTest_total_pos flat,
      spectralCentroidTest_total_pos cstd, spectralContrastTest_total_pos contr,
      silenceRatioTest_total_pos sil, rmsCvTest_total_pos rms, zcrStdTest_total_pos zcr,
      jitterTest_total_pos jit, shimmerTest_total_pos shim, harmonicRatioTest_total_pos harm⟩,
    ⟨(pitch_acc f).2.2, (mfcc_acc f).2.2, (spectral_acc f).2.2, (temporal_acc f).2.2,
      (voice_quality_acc f).2.2⟩,
    runAnalysis_scores f, ⟨?_, ?_, ?_, ?_, ?_⟩, ?_⟩
  · show mkScore (analyze_pitch f).res = _
    rw [mkScore_eq, if_pos (pitch_acc f).2.2]
  · show mkScore (analyze_mfcc f).res = _
    rw [mkScore_eq, if_pos (mfcc_acc f).2.2]
  · show mkScore (analyze_spectral f).res = _
    rw [mkScore_eq, if_pos (spectral_acc f).2.2]
  · show mkScore (analyze_temporal f).res = _
    rw [mkScore_eq, if_pos (temporal_acc f).2.2]
  · show mkScore (analyze_voice_quality f).res = _
    rw [mkScore_eq, if_pos (voice_quality_acc f).2.2]
  · rw [ai_probability, runAnalysis_scores, final_score_five]

/-- C6 counterexample: on the feature map with silence ratio 0.5 (all
other features 0), the temporal analyzer's first test fires its
above-band branch, adds 0.3 to the synthetic accumulator and appends the
indicator "Unusual pause patterns detected", yet increments neither shared
tally — refuting that every firing test increments the matching tally
together with its indicator. -/
theorem temporal_indicator_without_tally :
    (analyze_temporal ({ silence_ratio := 0.5 } : Features)).res.inds =
      ["Unusual pause patterns detected"] ∧
    (analyze_temporal ({ silence_ratio := 0.5 } : Features)).res.aiSig = 0 ∧
    (analyze_temporal ({ silence_ratio := 0.5 } : Features)).res.humanSig = 0 ∧
    0 < (analyze_temporal ({ silence_ratio := 0.5 } : Features)).res.ai := by
  norm_num [analyze_temporal, combine, silenceRatioTest, rmsCvTest, zcrStdTest,
    THRESHOLDS.silence_ratio_human_min, THRESHOLDS.silence_ratio_human_max]

/-- C6 amended: every threshold test appends at most one indicator and
increments at most one shared tally per branch, and any tally increment
accompanies a strictly positive score increment of the same polarity on
that branch; not every firing branch, however, appends an indicator or
increments a tally. -/
theorem test_effects_discipline
    (cv stdv rng mvar mdelta mstdm flat cstd contr sil rms zcr jit shim harm : ℚ) :
    testOk (pitchCvTest cv) ∧ testOk (pitchStdTest stdv) ∧ testOk (pitchRangeTest rng) ∧
    testOk (mfccVarTest mvar) ∧ testOk (mfccDeltaTest mdelta) ∧
    testOk (mfccStdMeanTest mstdm) ∧ testOk (spectralFlatnessTest flat) ∧
    testOk (spectralCentroidTest cstd) ∧ testOk (spectralContrastTest contr) ∧
    testOk (silenceRatioTest sil) ∧ testOk (rmsCvTest rms) ∧ testOk (zcrStdTest zcr) ∧
    testOk (jitterTest jit) ∧ testOk (shimmerTest shim) ∧ testOk (harmonicRatioTest harm) := by
  refine ⟨?_, ?_, ?_, ?_, ?_, ?_, ?_, ?_, ?_, ?_, ?_, ?_, ?_, ?_, ?_⟩ <;> unfold testOk <;>
    first
      | (unfold pitchCvTest; split_ifs <;> norm_num)
      | (unfold pitchStdTest; split_ifs <;> norm_num)
      | (unfold pitchRangeTest; split_ifs <;> norm_num)
      | (unfold mfccVarTest; split_ifs <;> norm_num)
      | (unfold mfccDeltaTest; split_ifs <;> norm_num)
      | (unfold mfccStdMeanTest; split_ifs <;> norm_num)
      | (unfold spectralFlatnessTest; split_ifs <;> norm_num)
      | (unfold spectralCentroidTest; split_ifs <;> norm_num)
      | (unfold spectralContrastTest; split_ifs <;> norm_num)
      | (unfold silenceRatioTest; split_ifs <;> norm_num)
      | (unfold rmsCvTest; split_ifs <;> norm_num)
      | (unfold zcrStdTest; split_ifs <;> norm_num)
      | (unfold jitterTest; split_ifs <;> norm_num)
      | (unfold shimmerTest; split_ifs <;> norm_num)
      | (unfold harmonicRatioTest; split_ifs <;> norm_num)

/-- C6 witness: the pitch-CV test at CV 0, whose synthetic branch fires
with tally increment 1, exhibits the positive synthetic score increment
and untouched human accumulator the amended claim promises. -/
theorem test_effects_discipline_witness :
    0 < (pitchCvTest 0).ai ∧ (pitchCvTest 0).human = 0 :=
  (test_effects_discipline 0 0 0 0 0 0 0 0 0 0 0 0 0 0 0).1.2.2.1
    (by norm_num [pitchCvTest, THRESHOLDS.pitch_cv_human_min])

lemma round2_bounds {x : ℚ} (h1 : (0.55 : ℚ) ≤ x) (h2 : x ≤ 0.99) :
    (0.55 : ℚ) ≤ round2 x ∧ round2 x ≤ 0.99 := by
  unfold round2
  have e : round (x * 100) = ⌊x * 100 + 1 / 2⌋ := round_eq _
  have l1 : (55 : ℤ) ≤ round (x * 100) := by
    rw [e]
    refine Int.le_floor.mpr ?_
    push_cast
    linarith
  have l2 : round (x * 100) ≤ 99 := by
    rw [e]
    have hlt : ⌊x * 100 + 1 / 2⌋ < 100 := by
      refine Int.floor_lt.mpr ?_
      push_cast
      linarith
    omega
  constructor
  · rw [le_div_iff₀ (by norm_num : (0:ℚ) < 100)]
    calc (0.55 : ℚ) * 100 = ((55 : ℤ) : ℚ) := by norm_num
    _ ≤ _ := by exact_mod_cast l1
  · rw [div_le_iff₀ (by norm_num : (0:ℚ) < 100)]
    calc ((round (x * 100) : ℤ) : ℚ) ≤ ((99 : ℤ) : ℚ) := by exact_mod_cast l2
    _ = 0.99 * 100 := by norm_num

lemma boost_eq_max (a h : ℕ) :
    calculate_confidence_boost a h =
      (if a + h = 0 then 0
       else
        if ((max a h : ℕ) : ℚ) / ((a + h : ℕ) : ℚ) > 0.75 then 0.25
        else if ((max a h : ℕ) : ℚ) / ((a + h : ℕ) : ℚ) > 0.65 then 0.15
        else if ((max a h : ℕ) : ℚ) / ((a + h : ℕ) : ℚ) > 0.55 then 0.08
        else 0) := by
  unfold calculate_confidence_boost
  by_cases h0 : a + h = 0
  · simp [h0]
  · rcases Nat.lt_or_ge h a with hlt | hle
    · rw [Nat.max_eq_left (le_of_lt hlt)]
      simp [h0, hlt]
    · rw [Nat.max_eq_right hle]
      simp [h0, Nat.not_lt.mpr hle]

/-- C2: the reported confidence is the raw confidence plus the
agreement boost, clamped to `[0.55, 0.99]` and rounded to two decimals;
the boost is 0.25/0.15/0.08/0 by the agreement quotient
`max(ai_signals, human_signals) / total` (0 when there are no signals);
hence the reported confidence always lies in `[0.55, 0.99]` and is an
integer multiple of 1/100. -/
theorem detect_confidence_spec (f : Features) :
    (detect f).confidenceScore =
      round2 (max 0.55 (min 0.99 (raw_confidence f + confidence_boost_of f))) ∧
    confidence_boost_of f =
      (if (runAnalysis f).aiSignals + (runAnalysis f).humanSignals = 0 then 0
       else
        if ((max (runAnalysis f).aiSignals (runAnalysis f).humanSignals : ℕ) : ℚ) /
            (((runAnalysis f).aiSignals + (runAnalysis f).humanSignals : ℕ) : ℚ) > 0.75 then
          0.25
        else if ((max (runAnalysis f).aiSignals (runAnalysis f).humanSignals : ℕ) : ℚ) /
            (((runAnalysis f).aiSignals + (runAnalysis f).humanSignals : ℕ) : ℚ) > 0.65 then
          0.15
        else if ((max (runAnalysis f).aiSignals (runAnalysis f).humanSignals : ℕ) : ℚ) /
            (((runAnalysis f).aiSignals + (runAnalysis f).humanSignals : ℕ) : ℚ) > 0.55 then
          0.08
        else 0) ∧
    0.55 ≤ (detect f).confidenceScore ∧ (detect f).confidenceScore ≤ 0.99 ∧
    ∃ n : ℤ, (detect f).confidenceScore = (n : ℚ) / 100 := by
  have hb := round2_bounds (x := final_confidence f) (le_max_left _ _)
    (max_le (by norm_num) (min_le_left _ _))
  exact ⟨rfl, boost_eq_max _ _, hb.1, hb.2, ⟨round (final_confidence f * 100), rfl⟩⟩

end VoiceDetector

namespace AudioFeatureExtractor

/-- C5 counterexample: with exactly ten voiced frames (pitch 100 Hz each)
the claim's "otherwise" branch applies (the voiced count is not fewer than
10) and predicts `pitch_mean = 100`, yet the code zero-fills because its
guard is `len(pitch_values) > 10`, so `pitch_mean = 0`. -/
theorem pitch_zero_fill_boundary_cex :
    ¬ ((voicedPitches frames10).length < 10) ∧
    (extract_pitch_features frames10).pitch_mean = 0 ∧
    meanR (voicedPitches frames10) = 100 ∧
    (extract_pitch_features frames10).pitch_mean ≠ meanR (voicedPitches frames10) := by
  have hv : voicedPitches frames10 =
      [100, 100, 100, 100, 100, 100, 100, 100, 100, 100] := by
    norm_num [frames10, voicedPitches, framePitch, argmaxIdx, List.filterMap, List.getD]
  have hm : (extract_pitch_features frames10).pitch_mean = 0 := by
    unfold extract_pitch_features
    rw [hv]
    norm_num
  have hmean : meanR (voicedPitches frames10) = 100 := by
    rw [hv]
    norm_num [meanR]
  exact ⟨by rw [hv]; norm_num, hm, hmean, by rw [hm, hmean]; norm_num⟩

/-- C5 amended: when at most 10 voiced frames remain all five pitch
features are zero; when more than 10 remain they are the mean, standard
deviation, range, coefficient of variation (0 on a non-positive mean) and
the fraction of adjacent-frame pitch deltas exceeding 50 Hz of the voiced
pitch values. -/
theorem extract_pitch_features_spec (frames : List (List ℝ × List ℝ)) :
    (¬ 10 < (voicedPitches frames).length →
      extract_pitch_features frames = ⟨0, 0, 0, 0, 0⟩) ∧
    (10 < (voicedPitches frames).length →
      extract_pitch_features frames =
        { pitch_mean := meanR (voicedPitches frames)
          pitch_std := stdR (voicedPitches frames)
          pitch_range := maxOf (voicedPitches frames) - minOf (voicedPitches frames)
          pitch_cv :=
            if meanR (voicedPitches frames) > 0 then
              stdR (voicedPitches frames) / meanR (voicedPitches frames)
            else 0
          pitch_jumps :=
            (((diffsR (voicedPitches frames)).map (fun d => |d|)).countP
                (fun d => decide (d > 50)) : ℝ) /
              ((diffsR (voicedPitches frames)).map (fun d => |d|)).length }) := by
  unfold extract_pitch_features
  constructor <;> intro h <;> simp [h]

/-- C5 witness: the no-voiced-frames instance, where the zero-fill branch
of the amended claim applies. -/
theorem extract_pitch_features_spec_witness :
    extract_pitch_features ([] : List (List ℝ × List ℝ)) = ⟨0, 0, 0, 0, 0⟩ :=
  (extract_pitch_features_spec []).1 (by norm_num [voicedPitches])

lemma meanQ_nonneg {xs : List ℚ} (h : ∀ x ∈ xs, 0 ≤ x) : 0 ≤ meanQ xs :=
  div_nonneg (List.sum_nonneg h) (Nat.cast_nonneg _)

/-- C7: every division in feature extraction is guarded — `rms_cv` is 0 on
a non-positive mean, the harmonic-to-percussive quotient is capped at 100
and equals 100 on zero percussive energy, jitter is 0 when the waveform is
not longer than one 25 ms frame, when fewer than 2 frame energies exist or
when their mean is non-positive, and always lies in `[0, 1]`; a waveform
yielding at most 10 pitch frames gets all-zero pitch features, the
pitch-CV quotient is guarded by a positive-mean test, and the detector
still returns a well-formed result (one of the two labels) on any feature
map. -/
theorem extractor_guards :
    (∀ rms : List ℝ, ¬ meanR rms > 0 → extract_rms_cv rms = 0) ∧
    (∀ harmonic percussive : List ℚ,
      extract_harmonic_ratio harmonic percussive ≤ 100 ∧
      (sumSquares percussive = 0 → extract_harmonic_ratio harmonic percussive = 100)) ∧
    (∀ (y : List ℚ) (sr : ℕ), ¬ y.length > frame_length sr → extract_jitter y sr = 0) ∧
    (∀ (y : List ℚ) (sr : ℕ), (frame_energies y sr).length ≤ 1 → extract_jitter y sr = 0) ∧
    (∀ (y : List ℚ) (sr : ℕ), ¬ meanQ (frame_energies y sr) > 0 → extract_jitter y sr = 0) ∧
    (∀ (y : List ℚ) (sr : ℕ), 0 ≤ extract_jitter y sr ∧ extract_jitter y sr ≤ 1) ∧
    (∀ frames : List (List ℝ × List ℝ), (voicedPitches frames).length ≤ frames.length) ∧
    (∀ frames : List (List ℝ × List ℝ), frames.length ≤ 10 →
      extract_pitch_features frames = ⟨0, 0, 0, 0, 0⟩) ∧
    (∀ frames : List (List ℝ × List ℝ), 10 < (voicedPitches frames).length →
      ¬ meanR (voicedPitches frames) > 0 → (extract_pitch_features frames).pitch_cv = 0) ∧
    (∀ f : VoiceDetector.Features,
      (VoiceDetector.detect f).classification = "AI_GENERATED" ∨
      (VoiceDetector.detect f).classification = "HUMAN") := by
  refine ⟨?_, ?_, ?_, ?_, ?_, ?_, ?_, ?_, ?_, ?_⟩
  · intro rms h
    exact if_neg h
  · intro harmonic percussive
    simp only [extract_harmonic_ratio]
    split_ifs with h
    · exact ⟨min_le_right _ _, fun h0 => absurd h (by rw [h0]; exact lt_irrefl 0)⟩
    · exact ⟨le_refl _, fun _ => rfl⟩
  · intro y sr h
    simp only [extract_jitter]
    exact if_neg h
  · intro y sr h
    simp only [extract_jitter]
    split_ifs with h1 h2
    · exact absurd h2.1 (by omega)
    · rfl
    · rfl
  · intro y sr h
    simp only [extract_jitter]
    split_ifs with h1 h2
    · exact absurd h2.2 h
    · rfl
    · rfl
  · intro y sr
    simp only [extract_jitter]
    split_ifs with h1 h2
    · have hnum : 0 ≤ meanQ ((diffsQ (frame_energies y sr)).map (fun d => |d|)) :=
        meanQ_nonneg (by
          intro x hx
          obtain ⟨d, _, rfl⟩ := List.mem_map.mp hx
          exact abs_nonneg d)
      exact ⟨le_min (div_nonneg hnum (le_of_lt h2.2)) (by norm_num), min_le_right _ _⟩
    · norm_num
    · norm_num
  · intro frames
    exact List.length_filterMap_le _ _
  · intro frames h
    unfold extract_pitch_features
    have : (voicedPitches frames).length ≤ 10 :=
      le_trans (List.length_filterMap_le _ _) h
    rw [if_neg (by omega)]
  · intro frames h1 h2
    simp only [extract_pitch_features]
    rw [if_pos h1]
    exact if_neg h2
  · intro f
    unfold VoiceDetector.detect VoiceDetector.classificationOf
    split_ifs <;> simp

/-- C7 witness: the guards applied at concrete degenerate inputs — an
all-zero rms frame list, empty separated components, an empty waveform at
16 kHz and an empty pitch-frame list. -/
theorem extractor_guards_witness :
    extract_rms_cv [0] = 0 ∧ extract_harmonic_ratio [] [] = 100 ∧
    extract_jitter [] 16000 = 0 ∧
    extract_pitch_features ([] : List (List ℝ × List ℝ)) = ⟨0, 0, 0, 0, 0⟩ := by
  refine ⟨extractor_guards.1 [0] (by norm_num [meanR]),
    (extractor_guards.2.1 [] []).2 (by norm_num [sumSquares]),
    extractor_guards.2.2.1 [] 16000 (by norm_num [frame_length]),
    extractor_guards.2.2.2.2.2.2.2.1 [] (by norm_num)⟩

end AudioFeatureExtractor


namespace VoiceDetector

lemma maxKeyQ_isSome {l : List (String × ℚ)} (h : l ≠ []) : ∃ c, maxKeyQ l = some c := by
  cases l with
  | nil => exact absurd rfl h
  | cons x t => exact ⟨_, rfl⟩

lemma minKeyQ_isSome {l : List (String × ℚ)} (h : l ≠ []) : ∃ c, minKeyQ l = some c := by
  cases l with
  | nil => exact absurd rfl h
  | cons x t => exact ⟨_, rfl⟩

lemma lookupD_ne_empty {m : List (String × String)} {k d : String}
    (hm : ∀ p ∈ m, p.2 ≠ "") (hd : d ≠ "") : lookupD m k d ≠ "" := by
  unfold lookupD
  cases hfind : m.find? (fun p => p.1 == k) with
  | none => exact hd
  | some p => exact hm p (List.mem_of_find?_eq_some hfind)

lemma and_join_ne (a b : String) : a ++ " and " ++ b ≠ "" := by
  intro h
  have hl := congrArg String.length h
  have h5 : (" and ").length = 5 := rfl
  simp [String.length_append, h5] at hl

lemma empty_toLower : "".toLower = "" := by
  show String.map Char.toLower "" = ""
  rw [String.map_eq]
  rfl

lemma matchesAny_AI_empty : matchesAny AI_KEYWORDS "" = false := by
  unfold matchesAny
  rw [empty_toLower]
  decide

lemma matchesAny_HUMAN_empty : matchesAny HUMAN_KEYWORDS "" = false := by
  unfold matchesAny
  rw [empty_toLower]
  decide

lemma ai_expl_ne : ∀ p ∈ AI_EXPLANATIONS, p.2 ≠ "" := by decide

lemma human_expl_ne : ∀ p ∈ HUMAN_EXPLANATIONS, p.2 ≠ "" := by decide

lemma mem_matched_ne_empty {kws inds : List String} {a : String}
    (hk : matchesAny kws "" = false) (ha : a ∈ inds.filter (matchesAny kws)) : a ≠ "" := by
  intro h
  subst h
  have hpa := (List.mem_filter.mp ha).2
  rw [hk] at hpa
  exact Bool.noConfusion hpa

/-- C8: the explanation is the first two label-matched indicators joined
with " and " (second lowercased) when at least two match, the single match
when exactly one matches, and otherwise the static sentence keyed by the
highest-scoring (synthetic label) or lowest-scoring (human label) category
with a generic per-label fallback; the result always exists and is a
non-empty string. -/
theorem generate_explanation_spec (cls : String) (indicators : List String)
    (scores : List (String × ℚ)) (hs : scores ≠ []) :
    ∃ e : String,
      generate_explanation cls indicators scores = some e ∧ e ≠ "" ∧
      (cls = "AI_GENERATED" →
        (2 ≤ (indicators.filter (matchesAny AI_KEYWORDS)).length →
          e = (indicators.filter (matchesAny AI_KEYWORDS)).getD 0 "" ++ " and " ++
            ((indicators.filter (matchesAny AI_KEYWORDS)).getD 1 "").toLower) ∧
        ((indicators.filter (matchesAny AI_KEYWORDS)).length = 1 →
          e = (indicators.filter (matchesAny AI_KEYWORDS)).getD 0 "") ∧
        (indicators.filter (matchesAny AI_KEYWORDS) = [] →
          ∃ c, maxKeyQ scores = some c ∧
            e = lookupD AI_EXPLANATIONS c "Synthetic speech patterns detected")) ∧
      (cls ≠ "AI_GENERATED" →
        (2 ≤ (indicators.filter (matchesAny HUMAN_KEYWORDS)).length →
          e = (indicators.filter (matchesAny HUMAN_KEYWORDS)).getD 0 "" ++ " and " ++
            ((indicators.filter (matchesAny HUMAN_KEYWORDS)).getD 1 "").toLower) ∧
        ((indicators.filter (matchesAny HUMAN_KEYWORDS)).length = 1 →
          e = (indicators.filter (matchesAny HUMAN_KEYWORDS)).getD 0 "") ∧
        (indicators.filter (matchesAny HUMAN_KEYWORDS) = [] →
          ∃ c, minKeyQ scores = some c ∧
            e = lookupD HUMAN_EXPLANATIONS c
              "Natural human speech characteristics identified")) := by
  by_cases hc : cls = "AI_GENERATED"
  · subst hc
    unfold generate_explanation
    rw [if_pos (beq_self_eq_true "AI_GENERATED")]
    cases hm : indicators.filter (matchesAny AI_KEYWORDS) with
    | nil =>
      obtain ⟨c, hck⟩ := maxKeyQ_isSome hs
      rw [hck]
      refine ⟨_, rfl, lookupD_ne_empty ai_expl_ne (by decide), fun _ => ?_,
        fun hne => absurd rfl hne⟩
      exact ⟨fun h2 => by simp at h2, fun h1 => by simp at h1, fun _ => ⟨c, rfl, rfl⟩⟩
    | cons a tail =>
      cases tail with
      | nil =>
        refine ⟨a, rfl,
          mem_matched_ne_empty matchesAny_AI_empty
            (by rw [hm]; exact List.mem_singleton.mpr rfl),
          fun _ => ?_, fun hne => absurd rfl hne⟩
        exact ⟨fun h2 => by simp at h2, fun _ => rfl,
          fun hx => absurd hx (List.cons_ne_nil _ _)⟩
      | cons b rest =>
        refine ⟨a ++ " and " ++ b.toLower, rfl, and_join_ne a b.toLower, fun _ => ?_,
          fun hne => absurd rfl hne⟩
        exact ⟨fun _ => rfl, fun h1 => by simp at h1,
          fun hx => absurd hx (List.cons_ne_nil _ _)⟩
  · unfold generate_explanation
    rw [if_neg (by simp [hc])]
    cases hm : indicators.filter (matchesAny HUMAN_KEYWORDS) with
    | nil =>
      obtain ⟨c, hck⟩ := minKeyQ_isSome hs
      rw [hck]
      refine ⟨_, rfl, lookupD_ne_empty human_expl_ne (by decide), fun hcc => absurd hcc hc,
        fun _ => ?_⟩
      exact ⟨fun h2 => by simp at h2, fun h1 => by simp at h1, fun _ => ⟨c, rfl, rfl⟩⟩
    | cons a tail =>
      cases tail with
      | nil =>
        refine ⟨a, rfl,
          mem_matched_ne_empty matchesAny_HUMAN_empty
            (by rw [hm]; exact List.mem_singleton.mpr rfl),
          fun hcc => absurd hcc hc, fun _ => ?_⟩
        exact ⟨fun h2 => by simp at h2, fun _ => rfl,
          fun hx => absurd hx (List.cons_ne_nil _ _)⟩
      | cons b rest =>
        refine ⟨a ++ " and " ++ b.toLower, rfl, and_join_ne a b.toLower,
          fun hcc => absurd hcc hc, fun _ => ?_⟩
        exact ⟨fun _ => rfl, fun h1 => by simp at h1,
          fun hx => absurd hx (List.cons_ne_nil _ _)⟩

end VoiceDetector

/-- C8 witness: the human label with no indicators and a singleton scores
list falls through to the static per-category sentence, which is
non-empty. -/
theorem generate_explanation_spec_witness :
    ([("pitch", (1/2 : ℚ))] : List (String × ℚ)) ≠ [] ∧
    ∃ e, VoiceDetector.generate_explanation "HUMAN" [] [("pitch", 1/2)] = some e ∧ e ≠ "" := by
  refine ⟨by simp, ?_⟩
  obtain ⟨e, h1, h2, _⟩ :=
    VoiceDetector.generate_explanation_spec "HUMAN" [] [("pitch", 1/2)] (by simp)
  exact ⟨e, h1, h2⟩
